import Mathlib

/-!
Verification of the go-result library (src/src/index.ts).

The library exports two factory functions over a two-position container:
  ok  : `(value) => [value, null] as const`
  err : `(error) => [null, error] as const`
and a structural type alias `Result<S, E> = readonly [S, null] | readonly [null, E]`.

We embed JavaScript runtime values shallowly as `JSVal`, the containers as
`JSVal × JSVal`, and the two factories as total Lean functions copied from the
source bodies.  A small expression semantics (`evalPairLit`) models the actual
evaluation of the array-literal bodies, where throwing is possible in the
language (an unbound identifier raises a ReferenceError), so that "the
constructors cannot fail" is a genuine unreachability statement.  A
state-passing model of allocation (`callOk`, `callErr`) makes the frame
property ("no factory call mutates a previously constructed container")
expressible.
-/

/-- JavaScript runtime values relevant to this library: the sentinel `null`,
`undefined`, numbers, strings and booleans. -/
inductive JSVal where
  | null : JSVal
  | undef : JSVal
  | num : Int → JSVal
  | str : String → JSVal
  | bool : Bool → JSVal
deriving DecidableEq, Repr

/-- `ok`, from src/src/index.ts line 11:
`const ok = <S>(value: S): readonly [S, null] => [value, null] as const`. -/
def ok (value : JSVal) : JSVal × JSVal := (value, JSVal.null)

/-- `err`, from src/src/index.ts line 18:
`const err = <E>(error: E): readonly [null, E] => [null, error] as const`. -/
def err (error : JSVal) : JSVal × JSVal := (JSVal.null, error)

/-- JavaScript truthiness on the embedded values: `null`, `undefined`, `0`,
the empty string and `false` are falsy; everything else is truthy. -/
def truthy : JSVal → Bool
  | JSVal.null => false
  | JSVal.undef => false
  | JSVal.num n => n != 0
  | JSVal.str s => s != ""
  | JSVal.bool b => b

/-- An expression occurring in a factory body: a literal or an identifier. -/
inductive Expr where
  | lit : JSVal → Expr
  | var : String → Expr
deriving DecidableEq, Repr

/-- A two-element array literal `[e₀, e₁]`, the whole body of each factory. -/
structure PairLit where
  fst : Expr
  snd : Expr
deriving DecidableEq, Repr

/-- Evaluate an expression under an environment.  An identifier not bound in
the environment throws (JavaScript ReferenceError), modelled as `Except`. -/
def evalExpr (env : String → Option JSVal) : Expr → Except String JSVal
  | Expr.lit v => Except.ok v
  | Expr.var x =>
    match env x with
    | some v => Except.ok v
    | none => Except.error ("ReferenceError: " ++ x ++ " is not defined")

/-- Evaluate a two-element array literal left to right; a throw in either
element propagates. -/
def evalPairLit (env : String → Option JSVal) (p : PairLit) :
    Except String (JSVal × JSVal) := do
  let a ← evalExpr env p.fst
  let b ← evalExpr env p.snd
  pure (a, b)

/-- The body of `ok`: the array literal `[value, null]`. -/
def okBody : PairLit := ⟨Expr.var "value", Expr.lit JSVal.null⟩

/-- The body of `err`: the array literal `[null, error]`. -/
def errBody : PairLit := ⟨Expr.lit JSVal.null, Expr.var "error"⟩

/-- The environment of a call `ok(v)`: the single parameter `value` bound. -/
def okEnv (v : JSVal) : String → Option JSVal :=
  fun x => if x = "value" then some v else none

/-- The environment of a call `err(e)`: the single parameter `error` bound. -/
def errEnv (e : JSVal) : String → Option JSVal :=
  fun x => if x = "error" then some e else none

/-- A container is in the state the spec calls well-discriminated: exactly one
of its two positions differs from the sentinel. -/
def exactlyOneNonSentinel (r : JSVal × JSVal) : Prop :=
  (r.1 ≠ JSVal.null ∧ r.2 = JSVal.null) ∨ (r.1 = JSVal.null ∧ r.2 ≠ JSVal.null)

instance (r : JSVal × JSVal) : Decidable (exactlyOneNonSentinel r) := by
  unfold exactlyOneNonSentinel; infer_instance

/-- State-passing embedding of a call `ok(v)` against the allocation state:
the array literal allocates one fresh container, which is appended to the list
of live containers; the body contains no assignment, so nothing else in the
state is written. -/
def callOk (σ : List (JSVal × JSVal)) (v : JSVal) :
    List (JSVal × JSVal) × (JSVal × JSVal) :=
  (σ ++ [ok v], ok v)

/-- State-passing embedding of a call `err(e)`; see `callOk`. -/
def callErr (σ : List (JSVal × JSVal)) (e : JSVal) :
    List (JSVal × JSVal) × (JSVal × JSVal) :=
  (σ ++ [err e], err e)

/-- C1: for every value `V`, including the sentinel, `ok V` is a two-position
container with position 0 equal to `V` and position 1 equal to the sentinel. -/
theorem C1_ok_shape (v : JSVal) :
    ok v = (v, JSVal.null) ∧ (ok v).1 = v ∧ (ok v).2 = JSVal.null :=
  ⟨rfl, rfl, rfl⟩

/-- C2: for every value `E`, including the sentinel, `err E` is a two-position
container with position 0 equal to the sentinel and position 1 equal to `E`. -/
theorem C2_err_shape (e : JSVal) :
    err e = (JSVal.null, e) ∧ (err e).1 = JSVal.null ∧ (err e).2 = e :=
  ⟨rfl, rfl, rfl⟩

/-- C3: every container built by either constructor has exactly one
non-sentinel position, except when the payload passed is itself the sentinel
(for `ok`, and in the §8 variant also for `err`). -/
theorem C3_exactly_one_non_sentinel (v e : JSVal) :
    (v ≠ JSVal.null → exactlyOneNonSentinel (ok v)) ∧
    (e ≠ JSVal.null → exactlyOneNonSentinel (err e)) :=
  ⟨fun hv => Or.inl ⟨hv, rfl⟩, fun he => Or.inr ⟨rfl, he⟩⟩

theorem C3_exactly_one_non_sentinel_witness :
    exactlyOneNonSentinel (ok (JSVal.num 42)) ∧
    exactlyOneNonSentinel (err (JSVal.str "division by zero")) :=
  ⟨(C3_exactly_one_non_sentinel (JSVal.num 42) (JSVal.str "division by zero")).1
      (by decide),
   (C3_exactly_one_non_sentinel (JSVal.num 42) (JSVal.str "division by zero")).2
      (by decide)⟩

/-- C4 counterexample: the claim says every container built by `err` has
position 1 different from the sentinel; `err null` refutes it, its position 1
is the sentinel. -/
theorem C4_counterexample : (err JSVal.null).2 = JSVal.null := rfl

/-- C4 amended: every container built by `ok` has position 1 equal to the
sentinel, and every container built by `err` from a non-sentinel payload has
position 1 different from the sentinel, so the single test "is position 1 the
sentinel" discriminates the variants whenever the failure payload is not the
sentinel. -/
theorem C4_discrimination (v e : JSVal) :
    (ok v).2 = JSVal.null ∧ (e ≠ JSVal.null → (err e).2 ≠ JSVal.null) :=
  ⟨rfl, fun he => he⟩

theorem C4_discrimination_witness :
    (ok (JSVal.num 42)).2 = JSVal.null ∧
    (err (JSVal.str "division by zero")).2 ≠ JSVal.null :=
  ⟨(C4_discrimination (JSVal.num 42) (JSVal.str "division by zero")).1,
   (C4_discrimination (JSVal.num 42) (JSVal.str "division by zero")).2
      (by decide)⟩

/-- C5: evaluating the factory bodies under the calling environment never
reaches the throwing branch of the semantics: for every argument the
evaluation returns normally with exactly the container the pure embedding
describes, and no validation rejects any input. -/
theorem C5_constructors_total (v e : JSVal) :
    evalPairLit (okEnv v) okBody = Except.ok (ok v) ∧
    evalPairLit (errEnv e) errBody = Except.ok (err e) :=
  ⟨rfl, rfl⟩

/-- C6: the constructors are deterministic and referentially transparent:
equal arguments yield structurally equal containers, and the value a call
returns is independent of the allocation state left by any other calls. -/
theorem C6_referential_transparency (v w : JSVal)
    (σ σ₂ : List (JSVal × JSVal)) (h : v = w) :
    ok v = ok w ∧ err v = err w ∧
    (callOk σ v).2 = (callOk σ₂ v).2 ∧ (callErr σ v).2 = (callErr σ₂ v).2 :=
  ⟨by rw [h], by rw [h], rfl, rfl⟩

theorem C6_referential_transparency_witness :
    ok (JSVal.num 42) = ok (JSVal.num 42) ∧
    err (JSVal.num 42) = err (JSVal.num 42) ∧
    (callOk [] (JSVal.num 42)).2 = (callOk [ok JSVal.null] (JSVal.num 42)).2 ∧
    (callErr [] (JSVal.num 42)).2 =
      (callErr [ok JSVal.null] (JSVal.num 42)).2 :=
  C6_referential_transparency (JSVal.num 42) (JSVal.num 42)
    [] [ok JSVal.null] rfl

/-- C7: frame property of the factories in the state-passing embedding: a call
only allocates a fresh container, so the list of previously constructed
containers survives unchanged — neither position of any existing container is
written — and the new container is appended after them. -/
theorem C7_no_mutation (σ : List (JSVal × JSVal)) (v e : JSVal) :
    ((callOk σ v).1).take σ.length = σ ∧
    ((callErr σ e).1).take σ.length = σ ∧
    (callOk σ v).1 = σ ++ [ok v] ∧ (callErr σ e).1 = σ ++ [err e] :=
  ⟨List.take_left σ [ok v], List.take_left σ [err e], rfl, rfl⟩

/-- C8: `ok null` is the all-sentinel container: a consumer testing whether
position 1 is the sentinel concludes success, which is correct, but a consumer
testing whether position 0 is non-sentinel to detect a present value is misled
on this genuine success. -/
theorem C8_ok_null_ambiguous :
    ok JSVal.null = (JSVal.null, JSVal.null) ∧
    (ok JSVal.null).2 = JSVal.null ∧
    ¬ (ok JSVal.null).1 ≠ JSVal.null :=
  ⟨rfl, rfl, fun h => h rfl⟩

/-- C9: at the sentinel the two constructors collapse: `ok null` and
`err null` are structurally identical, so the pair of constructors is not
jointly injective and no consumer can recover from the container alone which
constructor produced it. -/
theorem C9_constructors_collapse_at_null :
    ok JSVal.null = err JSVal.null ∧ ∃ v e, ok v = err e :=
  ⟨rfl, JSVal.null, JSVal.null, rfl⟩

/-- C10: truthiness does not follow the variant at either position: `err 0`,
`err ""` and `err false` are failures (position 1 non-sentinel) with a falsy
position 1, so the documented `if (error)` check treats them as successes, and
`ok 0` is a success (position 1 sentinel) with a falsy position 0, so the
success-only `if (value)` check misses it. -/
theorem C10_truthiness_mismatch :
    truthy (err (JSVal.num 0)).2 = false ∧
    truthy (err (JSVal.str "")).2 = false ∧
    truthy (err (JSVal.bool false)).2 = false ∧
    (err (JSVal.num 0)).2 ≠ JSVal.null ∧
    truthy (ok (JSVal.num 0)).1 = false ∧
    (ok (JSVal.num 0)).2 = JSVal.null := by
  refine ⟨rfl, by decide, rfl, by decide, rfl, rfl⟩
